import Mathlib

/-!
Verification of the Document-Complexity analyzer (src/app.py).

The repository is a single Python file.  The core logic is:
  * `calculate_table_complexity` (lines 12-34): five weighted boolean signals
    summed into a score, plus a three-level label;
  * three per-format extractors (PDF, DOCX, PPTX) producing four raw counts;
  * `calculate_document_complexity` (lines 90-118): file-type dispatch,
    extraction, and a weighted integer scoring formula with a three-level label.

Modelling conventions:
  * Python cell values reaching the classifier are strings, `None`
    (pdfplumber), or (per the spec) nested list-like values; modelled by the
    inductive `Cell`.
  * numpy real arithmetic (`np.std`, `np.mean`, `np.percentile`, `/`) is
    modelled exactly over `ℚ`; `np.std(xs) > 1` is modelled as the equivalent
    `pvariance xs > 1` (squaring both non-negative sides of the comparison).
  * Python exceptions are modelled with `Except PyError`.  Evaluating
    `cell.strip()` on a truthy non-string cell (line 16) raises
    `AttributeError`; falling through the un-defaulted `if/elif` dispatch
    (lines 91-103) leaves `num_complex_tables` & co. unbound, so line 105
    raises `UnboundLocalError`.
-/

namespace DocComplexity

/-- Python errors that the analyzer can surface, plus the `InputError` that the
error taxonomy of the spec postulates (the code never actually raises it). -/
inductive PyError where
  | attributeError
  | unboundLocal
  | documentParseError
  | inputError
deriving DecidableEq

/-- A table cell as it can reach `calculate_table_complexity`: a string
(docx/pptx `cell.text`, pdfplumber text), Python `None` (pdfplumber), or a
nested list-like value (the case the `isinstance(cell, list)` check of the source
anticipates). -/
inductive Cell where
  | str : String → Cell
  | none : Cell
  | lst : List Cell → Cell

/-- A table as passed to the classifier: a possibly ragged grid of cells. -/
abbrev PyTable := List (List Cell)

/-- Python truthiness of a cell (`if cell`, `not cell`). -/
def truthy : Cell → Bool
  | .str s => !s.isEmpty
  | .none => false
  | .lst l => !l.isEmpty

/-- `isinstance(cell, list)`. -/
def isList : Cell → Bool
  | .lst _ => true
  | _ => false

/-- `isinstance(cell, str)`. -/
def isStr : Cell → Bool
  | .str _ => true
  | _ => false

/-- Number of tokens of Python `s.split()`: split on whitespace runs,
dropping empty pieces. -/
def pyWordCount (s : String) : ℕ :=
  ((s.split Char.isWhitespace).filter (fun w => !w.isEmpty)).length

/-- `len(str(cell).split())` for a cell as used on lines 20 and 22 of the
source.  `str` is never applied to a list there: on line 20
`isinstance(cell, list)` short-circuits first, and on line 22 a truthy list
cell would already have raised on line 16; the `lst` value below is therefore
irrelevant (we pick the token count of a bracketed literal, which is at
least 1).  `str(None)` is `"None"`, a single token. -/
def cellTokens : Cell → ℕ
  | .str s => pyWordCount s
  | .none => 1
  | .lst _ => 1

/-- `num_rows = len(table)` (line 13). -/
def num_rows (t : PyTable) : ℕ := t.length

/-- `num_cols = max(len(row) for row in table) if table else 0` (line 14). -/
def num_cols (t : PyTable) : ℕ :=
  match t with
  | [] => 0
  | _ => (t.map List.length).foldl Nat.max 0

/-- `total_cells = num_rows * num_cols` (line 15). -/
def total_cells (t : PyTable) : ℕ := num_rows t * num_cols t

/-- The per-cell predicate of line 16: `not cell or cell.strip() == ""`.
In Python the second disjunct is only evaluated for truthy cells and raises
`AttributeError` when such a cell is not a string; `calculate_table_complexity`
below accounts for that via `hasBadCell`. -/
def isEmptyCell (c : Cell) : Bool :=
  !truthy c ||
    (match c with
     | .str s => s.trim.isEmpty
     | _ => false)

/-- `empty_cells` (line 16): count over the row-major cell traversal. -/
def empty_cells (t : PyTable) : ℕ := t.flatten.countP isEmptyCell

/-- `merged_cell_ratio = empty_cells / total_cells if total_cells else 0`
(line 17), in exact rationals. -/
def merged_cell_ratio (t : PyTable) : ℚ :=
  if total_cells t = 0 then 0 else (empty_cells t : ℚ) / (total_cells t : ℚ)

/-- `row_lengths = [len(row) for row in table]` (line 18). -/
def row_lengths (t : PyTable) : List ℕ := t.map List.length

/-- Population mean of a list of naturals, as a rational (0 on empty input,
matching the safe defaults the source relies on). -/
def meanN (xs : List ℕ) : ℚ :=
  if xs = [] then 0 else (xs.sum : ℚ) / (xs.length : ℚ)

/-- Population variance of a list of naturals (numpy `std` squared); 0 on the
empty list (where `np.std` yields `nan`, and `nan > 1` is false, the same
outcome as `0 > 1`). -/
def pvariance (xs : List ℕ) : ℚ :=
  if xs = [] then 0
  else ((xs.map (fun x => ((x : ℚ) - meanN xs) ^ 2)).sum) / (xs.length : ℚ)

/-- `row_length_variation = np.std(row_lengths) > 1` (line 19); since both
sides of the comparison are non-negative this is equivalent to comparing the
variance with 1. -/
def row_length_variation (t : PyTable) : Prop :=
  1 < pvariance (row_lengths t)

instance (t : PyTable) : Decidable (row_length_variation t) := by
  unfold row_length_variation; infer_instance

/-- `nested_table` (line 20): some cell is a list, or the text of some cell has
more than 15 whitespace-separated tokens. -/
def nested_table (t : PyTable) : Bool :=
  t.any fun row => row.any fun c => isList c || decide (15 < cellTokens c)

/-- Python `s.isalpha()`: non-empty and all alphabetic characters. -/
def pyIsAlpha (s : String) : Bool := !s.isEmpty && s.all Char.isAlpha

/-- The line-21 row predicate:
`all(cell and cell.isalpha() for cell in row if isinstance(cell, str))`.
Non-string cells are filtered out; each string cell must be truthy (non-empty)
and alphabetic.  Note an empty string cell makes the conjunct falsy and hence
the whole `all` false. -/
def headerRow (row : List Cell) : Bool :=
  row.all fun c =>
    match c with
    | .str s => !s.isEmpty && pyIsAlpha s
    | _ => true

/-- `header_count` (line 21): header-like rows among the first three rows. -/
def header_count (t : PyTable) : ℕ := (t.take 3).countP headerRow

/-- `word_counts` (line 22): per-cell token counts over truthy cells, in
row-major order. -/
def word_counts (t : PyTable) : List ℕ :=
  (t.flatten.filter truthy).map cellTokens

/-- `avg_word_count = np.mean(word_counts) if word_counts else 0` (line 23). -/
def avg_word_count (t : PyTable) : ℚ := meanN (word_counts t)

/-- Insert into a sorted list (ascending); helper for the percentile sort. -/
def insertSorted (x : ℕ) : List ℕ → List ℕ
  | [] => [x]
  | y :: ys => if x ≤ y then x :: y :: ys else y :: insertSorted x ys

/-- Ascending insertion sort, modelling the sort inside `np.percentile`. -/
def sortAsc (xs : List ℕ) : List ℕ := xs.foldr insertSorted []

/-- `np.percentile(xs, 75)` with the default linear-interpolation method, in
exact rationals: with `s` the ascending sort of `xs` and `n = |xs|`, the value
is `s[i] + g * (s[i+1] - s[i])` where `i = ⌊3(n-1)/4⌋` and
`g = 3(n-1)/4 - i = (3(n-1) mod 4)/4` is the fractional part of the rank
(the out-of-range index `i+1` at `g = 0` defaults to `s[i]`, leaving the
value unchanged).  The source only calls it on non-empty input; we return
0 on `[]`. -/
def perc75 (xs : List ℕ) : ℚ :=
  if xs = [] then 0
  else
    ((sortAsc xs).getD (3 * (xs.length - 1) / 4) 0 : ℕ)
      + (((3 * (xs.length - 1)) % 4 : ℕ) : ℚ) / 4
        * (((sortAsc xs).getD (3 * (xs.length - 1) / 4 + 1)
              ((sortAsc xs).getD (3 * (xs.length - 1) / 4) 0) : ℕ)
           - ((sortAsc xs).getD (3 * (xs.length - 1) / 4) 0 : ℕ))

/-- `high_density = avg_word_count > np.percentile(word_counts, 75) if
word_counts else False` (line 24). -/
def high_density (t : PyTable) : Prop :=
  word_counts t ≠ [] ∧ perc75 (word_counts t) < avg_word_count t

instance (t : PyTable) : Decidable (high_density t) := by
  unfold high_density; infer_instance

/-- The weighted signal sum of lines 26-32. -/
def score (t : PyTable) : ℚ :=
  (if 0.2 < merged_cell_ratio t then 0.4 else 0) +
  (if row_length_variation t then 0.3 else 0) +
  (if nested_table t then 0.4 else 0) +
  (if 1 < header_count t then 0.3 else 0) +
  (if high_density t then 0.2 else 0)

/-- `complexity_label` (line 33). -/
def complexity_label (t : PyTable) : String :=
  if score t ≤ 0.3 then "Simple"
  else if score t ≤ 0.6 then "Moderate"
  else "Complex"

/-- A truthy non-string cell: evaluating `cell.strip()` on it (line 16)
raises `AttributeError`.  With `Cell` restricted to strings, `None` and
lists, this is exactly a non-empty list cell. -/
def hasBadCell (t : PyTable) : Bool :=
  t.any fun row => row.any fun c => truthy c && !isStr c

/-- `calculate_table_complexity` (lines 12-34), with the line-16
`AttributeError` made explicit. -/
def calculate_table_complexity (t : PyTable) : Except PyError (ℚ × String) :=
  if hasBadCell t then .error .attributeError
  else .ok (score t, complexity_label t)

/-! ## Document-level model

The three format extractors walk library objects (pdfplumber/fitz/pdfminer
pages, python-docx documents, python-pptx presentations).  We model a parsed
document by the data those library calls return. -/

/-- A pdfminer layout element: an `LTTextBox` carrying text, or any other
element kind (filtered out by the `isinstance(element, LTTextBox)` check). -/
inductive PdfElement where
  | textbox : String → PdfElement
  | other : PdfElement

/-- One PDF page, as seen through the three library passes of lines 37-57:
pdfplumber `extract_tables` grids (cells are text or `None`), the number of
fitz embedded images, and the pdfminer layout elements. -/
structure PdfPage where
  tables : List PyTable
  images : ℕ
  elements : List PdfElement

/-- A parsed PDF document. -/
abbrev PdfDoc := List PdfPage

/-- A parsed word-processor document (python-docx view, lines 60-74):
tables as grids of `cell.text` strings, the number of inline shapes,
paragraph texts, and per-section count of declared `w:col` elements. -/
structure DocxDoc where
  tables : List (List (List String))
  inline_shapes : ℕ
  paragraphs : List String
  sectionCols : List ℕ

/-- A python-pptx shape (lines 77-87): whether it carries a table (and its
grid of `cell.text` strings), its `shape_type` code (13 = picture), and
whether it has a text frame (and the text of that frame). -/
structure PptxShape where
  has_table : Bool
  tableGrid : List (List String)
  shape_type : ℤ
  has_text_frame : Bool
  frameText : String

/-- A parsed slide deck: slides, each a list of shapes. -/
abbrev PptxDoc := List (List PptxShape)

/-- A parsed document of one of the three supported formats. -/
inductive Document where
  | pdf : PdfDoc → Document
  | docx : DocxDoc → Document
  | pptx : PptxDoc → Document

/-- A grid of plain strings as a `PyTable`
(`[[cell.text for cell in row.cells] for row in rows]`). -/
def strTable (g : List (List String)) : PyTable :=
  g.map fun row => row.map Cell.str

/-- `sum(1 for table in ts if calculate_table_complexity(table)[1] == "Complex")`:
the classifier runs on each table in order and any exception propagates. -/
def countComplex : List PyTable → Except PyError ℕ
  | [] => .ok 0
  | T :: ts => do
      let r ← calculate_table_complexity T
      let rest ← countComplex ts
      pure ((if r.2 = "Complex" then 1 else 0) + rest)

/-- `count_complex_tables_pdf` (lines 37-43); the per-page loop is flattened
into one pass over all tables in document order. -/
def count_complex_tables_pdf (d : PdfDoc) : Except PyError ℕ :=
  countComplex (d.map PdfPage.tables).flatten

/-- `count_images_pdf` (lines 45-47). -/
def count_images_pdf (d : PdfDoc) : ℕ := (d.map PdfPage.images).sum

/-- Dense text boxes on one page: `LTTextBox` elements whose text length
exceeds 500 (line 53). -/
def pageDenseCount (es : List PdfElement) : ℕ :=
  es.countP fun e =>
    match e with
    | .textbox s => decide (500 < s.length)
    | .other => false

/-- `analyze_layout_complexity_pdf` (lines 49-57): `num_columns` is set to 2
as soon as some page has more than 5 dense text boxes (and never reset), and
dense counts accumulate over pages.  Returns `(num_columns, dense_paragraphs)`. -/
def analyze_layout_complexity_pdf (d : PdfDoc) : ℕ × ℕ :=
  d.foldl
    (fun acc page =>
      let pc := pageDenseCount page.elements
      (if 5 < pc then 2 else acc.1, acc.2 + pc))
    (1, 0)

/-- `count_tables_docx` (lines 60-62). -/
def count_tables_docx (d : DocxDoc) : Except PyError ℕ :=
  countComplex (d.tables.map strTable)

/-- `count_images_docx` (lines 64-65). -/
def count_images_docx (d : DocxDoc) : ℕ := d.inline_shapes

/-- `analyze_layout_complexity_docx` (lines 67-74): paragraphs longer than
500 characters, and the maximum declared section column count (sections with
no `w:col` elements are skipped; default 1). -/
def analyze_layout_complexity_docx (d : DocxDoc) : ℕ × ℕ :=
  let dense := d.paragraphs.countP fun s => decide (500 < s.length)
  let cols := d.sectionCols.foldl (fun nc c => if c ≠ 0 then Nat.max nc c else nc) 1
  (cols, dense)

/-- `count_tables_pptx` (lines 77-79): shapes with a table, classified in
slide-then-shape order. -/
def count_tables_pptx (d : PptxDoc) : Except PyError ℕ :=
  countComplex ((d.flatten.filter PptxShape.has_table).map fun sh => strTable sh.tableGrid)

/-- `count_images_pptx` (lines 81-82): shapes whose `shape_type == 13`. -/
def count_images_pptx (d : PptxDoc) : ℕ :=
  d.flatten.countP fun sh => decide (sh.shape_type = 13)

/-- Raw dense-shape count of the slide deck (line 86): text-frame shapes
whose text exceeds 500 characters. -/
def pptx_dense_count (d : PptxDoc) : ℕ :=
  d.flatten.countP fun sh => sh.has_text_frame && decide (500 < sh.frameText.length)

/-- `analyze_layout_complexity_pptx` (lines 84-87): returns
`(1 if dense_paragraphs < 5 else 2, dense_paragraphs)`. -/
def analyze_layout_complexity_pptx (d : PptxDoc) : ℕ × ℕ :=
  (if pptx_dense_count d < 5 then 1 else 2, pptx_dense_count d)

/-- The report dictionary of lines 111-118. -/
structure Report where
  complexTables : ℕ
  columns : ℕ
  dense : ℕ
  images : ℕ
  finalScore : ℕ
  level : String
deriving DecidableEq

/-- The scoring arithmetic of lines 105-118, applied to the four extracted
counts: `table_score = n*20`, `layout_score = columns*20 + dense*5` when
`columns > 1 or dense > 0` else 0, `image_score = images*10`, and the
High/Medium/Low label. -/
def score_features (num_complex_tables num_images num_columns dense_paragraphs : ℕ) :
    Report :=
  let table_score := num_complex_tables * 20
  let layout_score :=
    if 1 < num_columns ∨ 0 < dense_paragraphs
    then num_columns * 20 + dense_paragraphs * 5 else 0
  let image_score := num_images * 10
  let final_score := table_score + layout_score + image_score
  let complexity_level :=
    if 100 < final_score then "High" else if 50 < final_score then "Medium" else "Low"
  { complexTables := num_complex_tables
    columns := num_columns
    dense := dense_paragraphs
    images := num_images
    finalScore := final_score
    level := complexity_level }

/-- `calculate_document_complexity` (lines 90-118).  The `if/elif` chain has
no final `else`: for an unrecognized `file_type` nothing is extracted and the
names `num_complex_tables`, `num_images`, `num_columns`, `dense_paragraphs`
are still unbound when line 105 runs, so Python raises `UnboundLocalError`
there; we model that outcome as `.error .unboundLocal`.  A declared type that
does not match the actual parsed document is a parse failure of the
corresponding library (`DocumentParseError`).  On the pptx path line 103
overwrites `dense_paragraphs` with 0 before scoring. -/
def calculate_document_complexity (file_type : String) (doc : Document) :
    Except PyError Report :=
  if file_type = "pdf" then
    match doc with
    | .pdf d => do
        let ct ← count_complex_tables_pdf d
        let nc := (analyze_layout_complexity_pdf d).1
        let dp := (analyze_layout_complexity_pdf d).2
        pure (score_features ct (count_images_pdf d) nc dp)
    | _ => .error .documentParseError
  else if file_type = "docx" then
    match doc with
    | .docx d => do
        let ct ← count_tables_docx d
        let nc := (analyze_layout_complexity_docx d).1
        let dp := (analyze_layout_complexity_docx d).2
        pure (score_features ct (count_images_docx d) nc dp)
    | _ => .error .documentParseError
  else if file_type = "pptx" then
    match doc with
    | .pptx d => do
        let ct ← count_tables_pptx d
        let nc := (analyze_layout_complexity_pptx d).1
        pure (score_features ct (count_images_pptx d) nc 0)
    | _ => .error .documentParseError
  else .error .unboundLocal

/-! ## Spec-side vocabulary

Predicates worded after the spec/claim sentences, to be compared with the
definitions read off the source. -/

namespace Spec

/-- The "blank-or-whitespace-only" cell of the spec: an empty text value, a text
value that strips to nothing, or a falsy non-text value. -/
def blankOrWhitespaceCell (c : Cell) : Bool :=
  match c with
  | .str s => s.isEmpty || s.trim.isEmpty
  | .none => true
  | .lst l => l.isEmpty

/-- The empty-cell ratio as worded by the spec: blank-or-whitespace-only cells over
`rows × max row length`, and 0 when that product is 0. -/
def emptyCellRatio (t : PyTable) : ℚ :=
  if t.length * num_cols t = 0 then 0
  else (t.flatten.countP blankOrWhitespaceCell : ℚ) / ((t.length * num_cols t : ℕ) : ℚ)

/-- The reading the C4 claim gives of the header heuristic: a row counts when every
NON-EMPTY string cell is purely alphabetic, so empty string cells are
supposed not to disqualify the row. -/
def headerRowClaim (row : List Cell) : Bool :=
  row.all fun c =>
    match c with
    | .str s => s.isEmpty || pyIsAlpha s
    | _ => true

/-- The trigger as the C4 claim words it: more than one claim-header row among the first
three rows. -/
def headerTriggerClaim (t : PyTable) : Bool :=
  decide (1 < (t.take 3).countP headerRowClaim)

/-- The amended header-row condition: every string cell of the row is
non-empty and purely alphabetic (an empty string cell disqualifies the row;
a row with no string cells qualifies vacuously). -/
def headerRowAmended (row : List Cell) : Bool :=
  row.all fun c =>
    match c with
    | .str s => !s.isEmpty && pyIsAlpha s
    | _ => true

end Spec

/-! ## Helper lemmas -/

theorem isEmptyCell_eq_spec (c : Cell) :
    isEmptyCell c = Spec.blankOrWhitespaceCell c := by
  cases c <;> simp [isEmptyCell, Spec.blankOrWhitespaceCell, truthy]

theorem level_spec (F : ℕ) :
    ((if 100 < F then "High" else if 50 < F then "Medium" else "Low") = "High"
        ↔ 100 < F) ∧
    ((if 100 < F then "High" else if 50 < F then "Medium" else "Low") = "Medium"
        ↔ 50 < F ∧ F ≤ 100) ∧
    ((if 100 < F then "High" else if 50 < F then "Medium" else "Low") = "Low"
        ↔ F ≤ 50) := by
  split_ifs with h1 h2
  · exact ⟨iff_of_true rfl h1, iff_of_false (by decide) (by omega),
      iff_of_false (by decide) (by omega)⟩
  · exact ⟨iff_of_false (by decide) h1, iff_of_true rfl ⟨h2, by omega⟩,
      iff_of_false (by decide) (by omega)⟩
  · exact ⟨iff_of_false (by decide) h1, iff_of_false (by decide) (by omega),
      iff_of_true rfl (by omega)⟩

/-! ### Claims C1 and C10: the document scorer -/

/-- C1: for all non-negative integer features, `finalScore` equals
`complexTableCount*20 + imageCount*10 + layoutScore` where the layout term is
`columnCount*20 + denseParagraphCount*5` exactly when `columnCount > 1` or
`denseParagraphCount > 0`; the label is High iff the score exceeds 100,
Medium iff it is in (50, 100], Low iff it is at most 50; and the two worked
examples (2,3,1,0) ↦ (70, Medium) and (2,3,2,0) ↦ (110, High) hold. -/
theorem c1_scorer_formula (ct ii cc dp : ℕ) :
    (score_features ct ii cc dp).finalScore
        = ct * 20 + ii * 10 + (if 1 < cc ∨ 0 < dp then cc * 20 + dp * 5 else 0) ∧
    ((score_features ct ii cc dp).level = "High"
        ↔ 100 < (score_features ct ii cc dp).finalScore) ∧
    ((score_features ct ii cc dp).level = "Medium"
        ↔ 50 < (score_features ct ii cc dp).finalScore
            ∧ (score_features ct ii cc dp).finalScore ≤ 100) ∧
    ((score_features ct ii cc dp).level = "Low"
        ↔ (score_features ct ii cc dp).finalScore ≤ 50) ∧
    (score_features 2 3 1 0).finalScore = 70 ∧
    (score_features 2 3 1 0).level = "Medium" ∧
    (score_features 2 3 2 0).finalScore = 110 ∧
    (score_features 2 3 2 0).level = "High" := by
  have h := level_spec (ct * 20
      + (if 1 < cc ∨ 0 < dp then cc * 20 + dp * 5 else 0) + ii * 10)
  refine ⟨?_, h.1, h.2.1, h.2.2, by with_unfolding_all rfl,
    by with_unfolding_all rfl, by with_unfolding_all rfl, by with_unfolding_all rfl⟩
  simp only [score_features]
  split_ifs <;> omega

/-- Witness for C1 at the concrete features (2, 3, 2, 0). -/
theorem c1_scorer_formula_witness :
    (score_features 2 3 2 0).finalScore
        = 2 * 20 + 3 * 10 + (if 1 < 2 ∨ 0 < 0 then 2 * 20 + 0 * 5 else 0) ∧
    ((score_features 2 3 2 0).level = "High"
        ↔ 100 < (score_features 2 3 2 0).finalScore) ∧
    ((score_features 2 3 2 0).level = "Medium"
        ↔ 50 < (score_features 2 3 2 0).finalScore
            ∧ (score_features 2 3 2 0).finalScore ≤ 100) ∧
    ((score_features 2 3 2 0).level = "Low"
        ↔ (score_features 2 3 2 0).finalScore ≤ 50) ∧
    (score_features 2 3 1 0).finalScore = 70 ∧
    (score_features 2 3 1 0).level = "Medium" ∧
    (score_features 2 3 2 0).finalScore = 110 ∧
    (score_features 2 3 2 0).level = "High" :=
  c1_scorer_formula 2 3 2 0

/-- C10: the final score is always a non-negative (it lives in `ℕ`) integer
multiple of 5: each contributing term is a count times 20, 10 or 5. -/
theorem c10_multiple_of_five (ct ii cc dp : ℕ) :
    5 ∣ (score_features ct ii cc dp).finalScore := by
  simp only [score_features]
  split_ifs <;> omega

/-- Witness for C10 at the concrete features (1, 2, 3, 4). -/
theorem c10_multiple_of_five_witness :
    5 ∣ (score_features 1 2 3 4).finalScore :=
  c10_multiple_of_five 1 2 3 4

/-! ### Claim C9: unsupported file type -/

/-- C9 counterexample: at the concrete input `file_type = "txt"`, the
function does not surface an `InputError`; it fails with the
`UnboundLocalError` raised when the scoring arithmetic of line 105 reads the
never-assigned extraction variables (the `if/elif` chain of lines 91-103 has
no `else`). -/
theorem c9_counterexample :
    calculate_document_complexity "txt" (Document.pptx []) =
        .error .unboundLocal ∧
    PyError.unboundLocal ≠ PyError.inputError :=
  ⟨by with_unfolding_all rfl, by decide⟩

/-- C9 amended: for every file type outside {pdf, docx, pptx} and every
document, no extraction and no report happens; the call fails with the
unbound-local error arising at the scoring arithmetic, not with an
`InputError`. -/
theorem c9_unsupported_type (ft : String) (d : Document)
    (h1 : ft ≠ "pdf") (h2 : ft ≠ "docx") (h3 : ft ≠ "pptx") :
    calculate_document_complexity ft d = .error .unboundLocal := by
  simp only [calculate_document_complexity, if_neg h1, if_neg h2, if_neg h3]

/-- Witness for the amended C9 at `file_type = "md"`. -/
theorem c9_unsupported_type_witness :
    calculate_document_complexity "md" (Document.docx ⟨[], 0, [], []⟩) =
      .error .unboundLocal :=
  c9_unsupported_type "md" (Document.docx ⟨[], 0, [], []⟩)
    (by decide) (by decide) (by decide)

/-! ### Claim C3: empty table and safe defaults -/

/-- C3: the empty table classifies to score 0 and label Simple without an
error, and every division defaults safely: the empty-cell ratio is 0 when
the cell grid is empty, and the mean word count is 0 and the density signal
is off when there are no non-empty cells. -/
theorem c3_empty_table :
    calculate_table_complexity [] = .ok (0, "Simple") ∧
    (∀ t : PyTable, total_cells t = 0 → merged_cell_ratio t = 0) ∧
    (∀ t : PyTable, word_counts t = [] →
      avg_word_count t = 0 ∧ ¬ high_density t) := by
  refine ⟨by with_unfolding_all rfl, ?_, ?_⟩
  · intro t ht
    simp [merged_cell_ratio, ht]
  · intro t ht
    exact ⟨by simp [avg_word_count, meanN, ht], fun hc => hc.1 ht⟩

/-- Witness for the inner implications of C3 at the one-empty-row table. -/
theorem c3_empty_table_witness :
    merged_cell_ratio [[]] = 0 ∧ avg_word_count [[]] = 0 :=
  ⟨c3_empty_table.2.1 [[]] (by with_unfolding_all rfl),
   (c3_empty_table.2.2 [[]] (by with_unfolding_all rfl)).1⟩

/-! ### Claim C5: the empty-cell signal -/

/-- C5: `merged_cell_ratio` as computed by the code coincides with the
blank-or-whitespace-only cell ratio (0 on an empty grid), the 0.4 signal
fires exactly on ratio strictly above 0.2, and a table whose ratio is
exactly 0.2 does not trigger it. -/
theorem c5_empty_cell_ratio (t : PyTable) :
    merged_cell_ratio t = Spec.emptyCellRatio t ∧
    (0.2 < merged_cell_ratio t ↔ 0.2 < Spec.emptyCellRatio t) ∧
    (Spec.emptyCellRatio t = 0.2 → ¬ 0.2 < merged_cell_ratio t) := by
  have hfun : isEmptyCell = Spec.blankOrWhitespaceCell := funext isEmptyCell_eq_spec
  have he : merged_cell_ratio t = Spec.emptyCellRatio t := by
    simp [merged_cell_ratio, Spec.emptyCellRatio, total_cells, num_rows,
      empty_cells, hfun]
  exact ⟨he, by rw [he], fun h => by rw [he, h]; exact lt_irrefl _⟩

/-- Witness for C5 at a 1×5 table with exactly one blank cell
(ratio exactly 0.2: the signal must not fire). -/
theorem c5_empty_cell_ratio_witness :
    ¬ 0.2 < merged_cell_ratio
        [[Cell.str "a", Cell.str "b", Cell.str "c", Cell.str "d", Cell.str ""]] :=
  (c5_empty_cell_ratio _).2.2 (by with_unfolding_all rfl)

/-! ### Claim C2: list-like cells and the nesting signal -/

/-- C2 counterexample: on the concrete one-cell table whose cell is a
non-empty list-like value, `calculate_table_complexity` does not return a
result: line 16 evaluates `cell.strip()` on the list and raises
`AttributeError` (so the "returns a result without raising" part of the claim fails). -/
theorem c2_counterexample :
    calculate_table_complexity [[Cell.lst [Cell.str "x"]]] =
        .error .attributeError ∧
    ∀ r, calculate_table_complexity [[Cell.lst [Cell.str "x"]]] ≠ .ok r := by
  have h0 : calculate_table_complexity [[Cell.lst [Cell.str "x"]]] =
      .error .attributeError := by with_unfolding_all rfl
  exact ⟨h0, fun r hr => by rw [h0] at hr; exact Except.noConfusion hr⟩

/-- C2 amended: on every table with no truthy (non-empty) list-like cell the
classifier returns a result without raising, and the 0.4 nesting/verbosity
signal fires exactly when some cell is list-like or the text of some cell splits
into more than 15 whitespace-separated tokens. -/
theorem c2_nesting_signal (t : PyTable) (h : hasBadCell t = false) :
    calculate_table_complexity t = .ok (score t, complexity_label t) ∧
    (nested_table t = true ↔
      ∃ row ∈ t, ∃ c ∈ row, isList c = true ∨ 15 < cellTokens c) := by
  refine ⟨by simp [calculate_table_complexity, h], ?_⟩
  simp [nested_table, List.any_eq_true, Bool.or_eq_true, decide_eq_true_eq]

/-- Witness for the amended C2 at a table with an empty list-like cell
(which fires the nesting signal without raising). -/
theorem c2_nesting_signal_witness :
    calculate_table_complexity [[Cell.str "hello", Cell.lst []]] =
        .ok (score [[Cell.str "hello", Cell.lst []]],
             complexity_label [[Cell.str "hello", Cell.lst []]]) ∧
    (nested_table [[Cell.str "hello", Cell.lst []]] = true ↔
      ∃ row ∈ [[Cell.str "hello", Cell.lst []]], ∃ c ∈ row,
        isList c = true ∨ 15 < cellTokens c) :=
  c2_nesting_signal [[Cell.str "hello", Cell.lst []]] (by with_unfolding_all rfl)

/-! ### Claim C4: the repeated-header signal -/

/-- C4 counterexample: on the concrete 2×5 table
`[["ab","cd","ef","gh",""], ["ij","kl","mn","op","qr"]]` the claimed
condition holds (both rows have all their non-empty string cells purely
alphabetic, so more than one claim-header row), yet the code counts only one
header row — the `""` cell makes `cell and cell.isalpha()` falsy, so the
first row fails `all(...)` — and the returned score is 0, with no 0.3
contribution. -/
theorem c4_counterexample :
    Spec.headerTriggerClaim
        [[Cell.str "ab", Cell.str "cd", Cell.str "ef", Cell.str "gh", Cell.str ""],
         [Cell.str "ij", Cell.str "kl", Cell.str "mn", Cell.str "op", Cell.str "qr"]]
      = true ∧
    header_count
        [[Cell.str "ab", Cell.str "cd", Cell.str "ef", Cell.str "gh", Cell.str ""],
         [Cell.str "ij", Cell.str "kl", Cell.str "mn", Cell.str "op", Cell.str "qr"]]
      = 1 ∧
    calculate_table_complexity
        [[Cell.str "ab", Cell.str "cd", Cell.str "ef", Cell.str "gh", Cell.str ""],
         [Cell.str "ij", Cell.str "kl", Cell.str "mn", Cell.str "op", Cell.str "qr"]]
      = .ok (0, "Simple") :=
  ⟨by with_unfolding_all rfl, by with_unfolding_all rfl, by with_unfolding_all rfl⟩

/-- C4 amended: the 0.3 signal counts, among the first three rows, the rows
whose string cells are ALL non-empty and purely alphabetic (an empty string
cell disqualifies its row; a row with no string cells counts vacuously), and
fires when more than one such row exists. -/
theorem c4_header_rows (t : PyTable) :
    (1 < header_count t ↔ 1 < (t.take 3).countP Spec.headerRowAmended) ∧
    (∀ row ∈ t.take 3, Cell.str "" ∈ row → headerRow row = false) := by
  constructor
  · exact Iff.rfl
  · intro row _ hmem
    refine List.all_eq_false.mpr ⟨Cell.str "", hmem, ?_⟩
    intro hc
    exact absurd hc (by with_unfolding_all decide)

/-- Witness for the amended C4 at a singleton table whose row contains an
empty string cell. -/
theorem c4_header_rows_witness :
    headerRow [Cell.str "ab", Cell.str ""] = false :=
  (c4_header_rows [[Cell.str "ab", Cell.str ""]]).2
    [Cell.str "ab", Cell.str ""]
    (List.mem_cons_self _ _)
    (List.mem_cons_of_mem _ (List.mem_cons_self _ _))

/-! ### Claim C6: score range and label step function -/

/-- C6: whenever the classifier returns `(s, l)`, the score `s` lies in
[0, 1.6] and the label is the step function of `s`: Simple iff `s ≤ 0.3`,
Moderate iff `0.3 < s ≤ 0.6`, Complex iff `0.6 < s`. -/
theorem c6_score_range (t : PyTable) (s : ℚ) (l : String)
    (h : calculate_table_complexity t = .ok (s, l)) :
    0 ≤ s ∧ s ≤ 1.6 ∧
    (l = "Simple" ↔ s ≤ 0.3) ∧
    (l = "Moderate" ↔ 0.3 < s ∧ s ≤ 0.6) ∧
    (l = "Complex" ↔ 0.6 < s) := by
  have hs : s = score t ∧ l = complexity_label t := by
    by_cases hb : hasBadCell t
    · rw [calculate_table_complexity, if_pos hb] at h
      exact absurd h (fun hc => Except.noConfusion hc)
    · rw [calculate_table_complexity, if_neg hb] at h
      obtain ⟨h1, h2⟩ := Prod.mk.injEq .. ▸ Except.ok.injEq .. ▸ h
      exact ⟨h1.symm, h2.symm⟩
  obtain ⟨rfl, rfl⟩ := hs
  refine ⟨?_, ?_, ?_⟩
  · unfold score; split_ifs <;> norm_num
  · unfold score; split_ifs <;> norm_num
  unfold complexity_label
  by_cases h1 : score t ≤ 0.3
  · rw [if_pos h1]
    exact ⟨iff_of_true rfl h1,
      iff_of_false (by decide) (fun hc => absurd h1 (not_le.mpr hc.1)),
      iff_of_false (by decide)
        (fun hc => absurd (lt_of_lt_of_le hc h1) (by norm_num))⟩
  by_cases h2 : score t ≤ 0.6
  · rw [if_neg h1, if_pos h2]
    exact ⟨iff_of_false (by decide) h1,
      iff_of_true rfl ⟨not_le.mp h1, h2⟩,
      iff_of_false (by decide) (not_lt.mpr h2)⟩
  · rw [if_neg h1, if_neg h2]
    exact ⟨iff_of_false (by decide) h1,
      iff_of_false (by decide) (fun hc => h2 hc.2),
      iff_of_true rfl (not_le.mp h2)⟩

/-- Witness for C6 at the empty table, whose classification is
`(0, "Simple")`. -/
theorem c6_score_range_witness :
    0 ≤ (0 : ℚ) ∧ (0 : ℚ) ≤ 1.6 ∧
    (("Simple" : String) = "Simple" ↔ (0 : ℚ) ≤ 0.3) ∧
    (("Simple" : String) = "Moderate" ↔ 0.3 < (0 : ℚ) ∧ (0 : ℚ) ≤ 0.6) ∧
    (("Simple" : String) = "Complex" ↔ 0.6 < (0 : ℚ)) :=
  c6_score_range [] 0 "Simple" (by with_unfolding_all rfl)

/-! ### Claim C8: the high-lexical-density signal -/

theorem mem_insertSorted {x a : ℕ} {l : List ℕ} :
    a ∈ insertSorted x l ↔ a = x ∨ a ∈ l := by
  induction l with
  | nil => simp [insertSorted]
  | cons y ys ih =>
    rw [insertSorted]
    split_ifs
    · simp
    · simp only [List.mem_cons, ih]
      tauto

theorem length_insertSorted (x : ℕ) (l : List ℕ) :
    (insertSorted x l).length = l.length + 1 := by
  induction l with
  | nil => rfl
  | cons y ys ih =>
    rw [insertSorted]
    split_ifs
    · simp
    · simp [ih]

theorem mem_sortAsc {a : ℕ} {l : List ℕ} : a ∈ sortAsc l ↔ a ∈ l := by
  induction l with
  | nil => simp [sortAsc]
  | cons x xs ih =>
    show a ∈ insertSorted x (sortAsc xs) ↔ _
    rw [mem_insertSorted, ih]
    simp

theorem length_sortAsc (l : List ℕ) : (sortAsc l).length = l.length := by
  induction l with
  | nil => rfl
  | cons x xs ih =>
    show (insertSorted x (sortAsc xs)).length = _
    rw [length_insertSorted, ih]
    rfl

theorem sum_of_all_eq {l : List ℕ} {w : ℕ} (h : ∀ x ∈ l, x = w) :
    l.sum = l.length * w := by
  induction l with
  | nil => simp
  | cons x xs ih =>
    have hx : x = w := h x (List.mem_cons_self _ _)
    have hs := ih (fun y hy => h y (List.mem_cons_of_mem _ hy))
    simp [hx, hs, Nat.succ_mul, Nat.add_comm]

theorem meanN_const {xs : List ℕ} {w : ℕ} (hne : xs ≠ []) (h : ∀ x ∈ xs, x = w) :
    meanN xs = w := by
  have hlen : (xs.length : ℚ) ≠ 0 := by
    exact_mod_cast fun hc => hne (List.length_eq_zero.mp hc)
  rw [meanN, if_neg hne, sum_of_all_eq h]
  push_cast
  field_simp

theorem getD_of_all_eq {l : List ℕ} {w : ℕ} (h : ∀ x ∈ l, x = w) {i : ℕ}
    (hi : i < l.length) (d : ℕ) : l.getD i d = w := by
  rw [List.getD_eq_getElem l d hi]
  exact h _ (List.getElem_mem hi)

theorem perc75_const {xs : List ℕ} {w : ℕ} (hne : xs ≠ []) (h : ∀ x ∈ xs, x = w) :
    perc75 xs = w := by
  have hs : ∀ x ∈ sortAsc xs, x = w := fun x hx => h x (mem_sortAsc.mp hx)
  have hlen : (sortAsc xs).length = xs.length := length_sortAsc xs
  have hn : 0 < xs.length := List.length_pos.mpr hne
  have hi : 3 * (xs.length - 1) / 4 < (sortAsc xs).length := by
    rw [hlen]; omega
  have hlo : (sortAsc xs).getD (3 * (xs.length - 1) / 4) 0 = w :=
    getD_of_all_eq hs hi 0
  have hhi : (sortAsc xs).getD (3 * (xs.length - 1) / 4 + 1)
      ((sortAsc xs).getD (3 * (xs.length - 1) / 4) 0) = w := by
    by_cases h2 : 3 * (xs.length - 1) / 4 + 1 < (sortAsc xs).length
    · exact getD_of_all_eq hs h2 _
    · rw [List.getD_eq_default _ _ (by omega)]
      exact hlo
  rw [perc75, if_neg hne, hhi, hlo]
  ring

/-- C8: the 0.2 signal fires exactly when there is at least one non-empty
cell and the mean per-cell word count over the non-empty cells strictly
exceeds the 75th percentile of that same distribution; in particular, on a
table whose non-empty cells all have the same word count, the signal never
fires (mean = percentile). -/
theorem c8_high_density (t : PyTable) :
    (high_density t ↔
      word_counts t ≠ [] ∧ perc75 (word_counts t) < avg_word_count t) ∧
    ((∃ w, ∀ x ∈ word_counts t, x = w) → ¬ high_density t) := by
  refine ⟨Iff.rfl, ?_⟩
  rintro ⟨w, hw⟩ ⟨hne, hlt⟩
  rw [avg_word_count, meanN_const hne hw, perc75_const hne hw] at hlt
  exact lt_irrefl _ hlt

/-- Witness for C8 at a table whose two non-empty cells both hold two-word
texts: the density signal is off. -/
theorem c8_high_density_witness :
    ¬ high_density [[Cell.str "a b", Cell.str "c d"]] :=
  (c8_high_density [[Cell.str "a b", Cell.str "c d"]]).2
    ⟨2, by with_unfolding_all decide⟩

/-! ### Claim C7: the slide-deck path -/

theorem hasBadCell_strTable (g : List (List String)) :
    hasBadCell (strTable g) = false := by
  rw [hasBadCell, strTable]
  refine List.any_eq_false.mpr ?_
  intro row hrow
  obtain ⟨r, _, rfl⟩ := List.mem_map.mp hrow
  intro hc
  obtain ⟨c, hcmem, hcf⟩ := List.any_eq_true.mp hc
  obtain ⟨s, _, rfl⟩ := List.mem_map.mp hcmem
  simp [isStr] at hcf

theorem countComplex_ok (ts : List PyTable) (h : ∀ T ∈ ts, hasBadCell T = false) :
    countComplex ts =
      .ok (ts.countP fun T => decide (complexity_label T = "Complex")) := by
  induction ts with
  | nil => rfl
  | cons T ts ih =>
    have hT : hasBadCell T = false := h T (List.mem_cons_self _ _)
    have hrest := ih (fun U hU => h U (List.mem_cons_of_mem _ hU))
    rw [countComplex, calculate_table_complexity, if_neg (by simp [hT]), hrest]
    show Except.ok _ = _
    rw [List.countP_cons]
    congr 1
    simp only [decide_eq_true_eq]
    split_ifs <;> omega

/-- C7: for every slide deck, the analysis returns a report whose
`denseParagraphCount` field is 0 (regardless of the raw dense-shape count),
whose `columnCount` is 1 when the raw count is below 5 and 2 otherwise, and
whose final score has no `denseParagraphCount*5` term: it equals
`complexTables*20 + (columns*20 when columns > 1 else 0) + images*10`. -/
theorem c7_pptx_dense_zero (p : PptxDoc) :
    ∃ r : Report,
      calculate_document_complexity "pptx" (Document.pptx p) = .ok r ∧
      r.dense = 0 ∧
      r.columns = (if pptx_dense_count p < 5 then 1 else 2) ∧
      r.finalScore =
        r.complexTables * 20 + (if 1 < r.columns then r.columns * 20 else 0)
          + r.images * 10 := by
  have hct : count_tables_pptx p =
      .ok (((p.flatten.filter PptxShape.has_table).map
              fun sh => strTable sh.tableGrid).countP
            fun T => decide (complexity_label T = "Complex")) := by
    rw [count_tables_pptx]
    refine countComplex_ok _ ?_
    intro T hT
    obtain ⟨sh, _, rfl⟩ := List.mem_map.mp hT
    exact hasBadCell_strTable _
  refine ⟨score_features
      (((p.flatten.filter PptxShape.has_table).map
          fun sh => strTable sh.tableGrid).countP
        fun T => decide (complexity_label T = "Complex"))
      (count_images_pptx p) (analyze_layout_complexity_pptx p).1 0,
    ?_, rfl, ?_, ?_⟩
  · rw [calculate_document_complexity,
      if_neg (by decide : ¬ ("pptx" : String) = "pdf"),
      if_neg (by decide : ¬ ("pptx" : String) = "docx"),
      if_pos rfl]
    show Except.bind (count_tables_pptx p) _ = _
    rw [hct]
    rfl
  · rfl
  · simp only [score_features]
    split_ifs <;> omega

/-- Witness for C7 at the empty slide deck. -/
theorem c7_pptx_dense_zero_witness :
    ∃ r : Report,
      calculate_document_complexity "pptx" (Document.pptx []) = .ok r ∧
      r.dense = 0 ∧
      r.columns = (if pptx_dense_count [] < 5 then 1 else 2) ∧
      r.finalScore =
        r.complexTables * 20 + (if 1 < r.columns then r.columns * 20 else 0)
          + r.images * 10 :=
  c7_pptx_dense_zero []

end DocComplexity
